import Mathlib

/-!
Verification of the asynchronous question-paper processing pipeline and its
session/progress tracking mechanism.

Shallow embedding of:
- `src/backend/src/session_manager.py` (SessionManager over a Redis keyspace,
  modelled as association lists keyed by session id);
- `src/backend/src/tasks.py` (`process_question_paper`, modelled as a pure
  function from the outcomes of the external collaborators to the sequence of
  session-store writes it performs plus its own outcome);
- `src/backend/src/answer_generator.py` (the retry loop of
  `_generate_answer_with_llm`, and the progress remapping callback);
- `src/backend/src/main.py` (`regenerate_answer` endpoint).

Conventions:
- Python `datetime.utcnow()` is modelled by an explicit `now : Nat` parameter.
- Python `int((a / b) * c)` on non-negative operands is modelled by exact
  natural floor division `a * c / b`.  For the three occurrences in the code
  (`20 + int((progress / 100) * 40)`, `25 + int((i / n) * 35)`,
  `65 + int((p / total) * 10)`) this agrees with CPython float evaluation on
  the whole domain of the first (0..100) and on all inputs with n, total up to
  several hundred; no theorem below depends on the exact value beyond
  monotonicity, range bounds, and small concrete cases where the float result
  is exact.
- Redis operations are modelled as total (storage-layer unavailability is out
  of scope); the `try`/`except` swallowing in `_emit_progress` is therefore
  invisible.
-/

namespace QAGen

/-- Session status, from `session_manager.py` `SessionStatus`. -/
inductive SessionStatus where
  | pending
  | processing
  | complete
  | error
deriving DecidableEq, Repr

/-- The string value stored in Redis for a status (`SessionStatus.<X>.value`). -/
def SessionStatus.value : SessionStatus → String
  | .pending => "pending"
  | .processing => "processing"
  | .complete => "complete"
  | .error => "error"

/-- A progress event, from `session_manager.py` `ProgressEvent`. -/
structure ProgressEvent where
  session_id : String
  stage : String
  progress : Nat
  message : String
  timestamp : Nat
deriving DecidableEq, Repr

/-- One entry of the per-session answers list, the dict written by
`SessionManager.store_answer`. `index` is an `Int` because
`SessionManager.update_answer` compares it against a caller-supplied Python
int that may be negative. -/
structure AnswerEntry where
  index : Int
  question : String
  answer : String
  diagrams_count : Nat
  timestamp : Nat
deriving DecidableEq, Repr

/-- The Redis hash `session:{id}`. Every field is optional: `hset` creates
fields individually, and `create_session` does not write a `progress` or
`current_stage` field. -/
structure SessionRecord where
  session_id : Option String
  status : Option String
  language : Option String
  created_at : Option Nat
  metadata : Option String
  progress : Option Nat
  current_stage : Option String
deriving DecidableEq, Repr

/-- A hash with no fields, i.e. a key absent from Redis. -/
def emptyRecord : SessionRecord :=
  ⟨none, none, none, none, none, none, none⟩

/-- `hgetall` returns an empty dict exactly when no field is set. -/
def SessionRecord.isEmpty (r : SessionRecord) : Bool :=
  r.session_id.isNone && r.status.isNone && r.language.isNone &&
  r.created_at.isNone && r.metadata.isNone && r.progress.isNone &&
  r.current_stage.isNone

/-- The terminal result payload stored by `store_result` in `tasks.py`:
either the success dict (lines 296-304) or the error dict (lines 323-328). -/
inductive ResultData where
  | ok (pdf_identifier : String) (filename : String) (page_count : Nat)
      (questions_processed : Nat) (answers_generated : Nat)
      (diagrams_generated : Nat)
  | err (error : String) (error_type : String) (tb : String)
deriving DecidableEq, Repr

/-- Lookup in an association list, the model of a Redis keyspace. -/
def getK {α : Type} (k : String) : List (String × α) → Option α
  | [] => none
  | kv :: rest => if kv.1 = k then some kv.2 else getK k rest

/-- Write a key, overwriting the first occurrence (Redis `set`/dict assignment). -/
def setK {α : Type} (k : String) (v : α) : List (String × α) → List (String × α)
  | [] => [(k, v)]
  | kv :: rest => if kv.1 = k then (k, v) :: rest else kv :: setK k v rest

/-- Read-modify-write of a key with a default for an absent key. -/
def updK {α : Type} (k : String) (d : α) (f : α → α)
    (m : List (String × α)) : List (String × α) :=
  setK k (f ((getK k m).getD d)) m

/-- The whole Redis keyspace used by `SessionManager`: the `session:{id}`
hashes, the `progress:{id}` lists, the `result:{id}` strings and the
`answers:{id}` lists. TTLs are not modelled (expiry is out of scope). -/
structure Store where
  sessions : List (String × SessionRecord)
  progress : List (String × List ProgressEvent)
  results : List (String × ResultData)
  answers : List (String × List AnswerEntry)
deriving DecidableEq, Repr

/-- `SessionManager.create_session` (lines 104-137): `hset` of the five
initial fields with status `pending`; the caller-supplied id case (`uuid4`
generation for `session_id=None` is not modelled). -/
def create_session (s : Store) (session_id : String) (language : String)
    (metadata : String) (now : Nat) : Store :=
  { s with sessions := (updK session_id emptyRecord (fun r =>
      { r with session_id := some session_id,
               status := some SessionStatus.pending.value,
               language := some language,
               created_at := some now,
               metadata := some metadata }) s.sessions) }

/-- `SessionManager.get_session` (lines 139-159): `hgetall`, `None` on an
empty result. -/
def get_session (s : Store) (session_id : String) : Option SessionRecord :=
  match getK session_id s.sessions with
  | none => none
  | some r => if r.isEmpty then none else some r

/-- `SessionManager.update_session_status` (lines 161-175): a bare `hset` of
the status field; no transition validation. -/
def update_session_status (s : Store) (session_id : String)
    (status : SessionStatus) : Store :=
  { s with sessions := (updK session_id emptyRecord
      (fun r => { r with status := some status.value }) s.sessions) }

/-- `SessionManager.add_progress_event` (lines 206-224): `rpush` the event and
`hset` the latest-progress projection on the session hash. -/
def add_progress_event (s : Store) (event : ProgressEvent) : Store :=
  { s with
    progress := (updK event.session_id [] (fun l => l ++ [event]) s.progress),
    sessions := (updK event.session_id emptyRecord
      (fun r => { r with progress := some event.progress,
                         current_stage := some event.stage }) s.sessions) }

/-- The dict returned by `get_latest_progress`. -/
structure LatestProgress where
  progress : Nat
  stage : String
  status : String
deriving DecidableEq, Repr

/-- `SessionManager.get_latest_progress` (lines 246-268): three `hget`s;
returns `None` exactly when the `progress` field is absent, otherwise fills
the missing stage/status with `"pending"`. -/
def get_latest_progress (s : Store) (session_id : String) :
    Option LatestProgress :=
  let r := (getK session_id s.sessions).getD emptyRecord
  match r.progress with
  | none => none
  | some p =>
    some ⟨p, r.current_stage.getD "pending", r.status.getD "pending"⟩

/-- `SessionManager.store_result` (lines 270-287). -/
def store_result (s : Store) (session_id : String) (data : ResultData) :
    Store :=
  { s with results := setK session_id data s.results }

/-- `SessionManager.get_result` (lines 289-304). -/
def get_result (s : Store) (session_id : String) : Option ResultData :=
  getK session_id s.results

/-- `SessionManager.store_answer` (lines 335-364): `rpush` of the preview
entry. -/
def store_answer (s : Store) (session_id : String) (question_index : Int)
    (question_text : String) (answer_text : String) (diagrams_count : Nat)
    (now : Nat) : Store :=
  { s with answers := (updK session_id []
      (fun l => l ++ [⟨question_index, question_text, answer_text,
                       diagrams_count, now⟩]) s.answers) }

/-- `SessionManager.get_answers` (lines 366-383). -/
def get_answers (s : Store) (session_id : String) : List AnswerEntry :=
  (getK session_id s.answers).getD []

/-- The scan-and-replace loop inside `SessionManager.update_answer`
(lines 403-410): replace the answer text and timestamp of the first entry
whose stored `index` equals `question_index`, leave everything else alone. -/
def updateFirstAnswer (question_index : Int) (new_answer_text : String)
    (now : Nat) : List AnswerEntry → List AnswerEntry
  | [] => []
  | a :: rest =>
    if a.index = question_index then
      { a with answer := new_answer_text, timestamp := now } :: rest
    else
      a :: updateFirstAnswer question_index new_answer_text now rest

/-- `SessionManager.update_answer` (lines 385-410): rewrites the
`answers:{id}` list in place (via `lset`); no other key is touched, and a
missing key stays missing. -/
def update_answer (s : Store) (session_id : String) (question_index : Int)
    (new_answer_text : String) (now : Nat) : Store :=
  { s with answers := (s.answers.map (fun kv =>
      if kv.1 = session_id then
        (kv.1, updateFirstAnswer question_index new_answer_text now kv.2)
      else kv)) }

/-- A question as produced by the input parser; only the fields the pipeline
reads (`models.py` `Question.id`, `Question.text`). -/
structure Question where
  id : String
  text : String
deriving DecidableEq, Repr

/-- A Python exception as seen by the top-level handler of
`process_question_paper`: its class name and its message. -/
structure PyErr where
  ty : String
  msg : String
deriving DecidableEq, Repr

/-- The final line of `traceback.format_exc()` output; the preceding frame
listing is abstracted. -/
def format_exc (e : PyErr) : String :=
  "Traceback (most recent call last): ... " ++ e.ty ++ ": " ++ e.msg

/-- The exception a one-argument `ParseError(...)` construction actually
raises: `ParseError.__init__` in `exceptions.py` requires a second positional
argument `parse_issue`, so `raise ParseError("No questions found in the input
file")` at `tasks.py` line 82 — like the wrapper
`raise ParseError(f"Failed to parse input file: ...")` at line 378 — raises
this `TypeError` at the constructor call instead of a `ParseError`.  The
message text is CPython 3.10+'s qualified form. -/
def parseErrorTypeError : PyErr :=
  ⟨"TypeError",
   "ParseError.__init__() missing 1 required positional argument: " ++
     "'parse_issue'"⟩

/-- Outcome of `AnswerGenerator.generate_answer` for one question, as observed
by the orchestrator: either an answer (its content plus, for each of its
`visual_elements`, whether `DiagramGenerator.generate_diagram` will later
succeed on it), or the message of the exception that escapes after the retry
wrapper is exhausted (the LLM-call failure path: locals 10/20/40 have been
emitted, the later ones not). -/
inductive GenOutcome where
  | success (content : String) (visuals : List Bool)
  | failure (msg : String)
deriving DecidableEq, Repr

/-- Outcomes of all external collaborators consumed by one invocation of
`process_question_paper`; the pipeline itself is a pure function of these. -/
structure PipelineEnv where
  /-- `_parse_input_file` result: the questions, or the exception that
  escapes it — a genuine `ParseError` (propagated from the two-argument
  constructions in `input_parser.py`), or `parseErrorTypeError` when any
  other failure reaches the one-argument wrapper at `tasks.py` line 378. -/
  parse : Except PyErr (List Question)
  /-- collaborator construction (knowledge base, generators, storage,
  lines 94-168): `none` if it succeeds, or the exception it raises. -/
  init : Option PyErr
  /-- `generate_answer` outcome for the question at each 0-based position. -/
  gen : Nat → GenOutcome
  /-- `pdf_generator.generate_pdf` outcome: filename and page count. -/
  pdf : Except PyErr (String × Nat)
  /-- `pdf_storage.save_pdf` outcome: the pdf identifier. -/
  save : Except PyErr String
  /-- whether the uploaded file is still present when the `finally` block
  checks `os.path.exists` (it is, in every run started by the upload route). -/
  fileExists : Bool

/-- One write the task performs against the session store or the filesystem,
in program order.  The Boolean on `emit` records the call site of
`_emit_progress`: `true` for the remapped events coming through
`answer_progress_callback`, `false` for the direct calls in
`process_question_paper`.  It is bookkeeping only and affects no behavior. -/
inductive Action where
  | setStatus (status : SessionStatus)
  | emit (viaCallback : Bool) (stage : String) (progress : Nat) (message : String)
  | storeAnswer (index : Int) (question : String) (answer : String)
      (diagramsCount : Nat)
  | storeResult (data : ResultData)
  | removeFile
deriving DecidableEq, Repr

/-- The remapping done by `answer_progress_callback` in `tasks.py` (lines
97-101): `overall_progress = 20 + int((progress / 100) * 40)`. -/
def overall_progress (progress : Nat) : Nat :=
  20 + progress * 40 / 100

/-- The progress events `AnswerGenerator.generate_answer` pushes through the
callback for one question: locals 10, 20, 40, 70, 90, 100 on success
(lines 118-141 of `answer_generator.py`), and only 10, 20, 40 when the LLM
call inside fails after exhausting retries. -/
def generateAnswerEvents (qid : String) : GenOutcome → List Action
  | .success _ _ =>
    [ .emit true "knowledge_search" (overall_progress 10)
        ("Searching knowledge base for question " ++ qid),
      .emit true "context_building" (overall_progress 20)
        ("Building context for question " ++ qid),
      .emit true "answer_generation" (overall_progress 40)
        ("Generating answer for question " ++ qid),
      .emit true "visual_detection" (overall_progress 70)
        ("Detecting visual elements for question " ++ qid),
      .emit true "citation_generation" (overall_progress 90)
        ("Generating citations for question " ++ qid),
      .emit true "complete" (overall_progress 100)
        ("Completed answer generation for question " ++ qid) ]
  | .failure _ =>
    [ .emit true "knowledge_search" (overall_progress 10)
        ("Searching knowledge base for question " ++ qid),
      .emit true "context_building" (overall_progress 20)
        ("Building context for question " ++ qid),
      .emit true "answer_generation" (overall_progress 40)
        ("Generating answer for question " ++ qid) ]

/-- The in-memory answer the stage-3 loop appends to `answers`; the fields
stages 4/5 read.  `visuals` carries, per visual element, whether its diagram
generation will succeed. -/
structure AnswerRec where
  question_id : String
  content : String
  visuals : List Bool
deriving DecidableEq, Repr

/-- One iteration of the stage-3 loop of `process_question_paper` (lines
178-225); `i` is the 1-based counter of `enumerate(questions, 1)`, `n` the
question count.  The `try` arm appends the generated answer, the `except` arm
the fallback `Answer` whose content encodes the error. -/
def answerStep (n i : Nat) (q : Question) (g : GenOutcome) :
    List Action × AnswerRec :=
  let pre : Action := .emit false "generating_answer" (25 + i * 35 / n)
    ("Generating answer " ++ toString i ++ "/" ++ toString n)
  match g with
  | .success content visuals =>
    (pre :: generateAnswerEvents q.id (.success content visuals) ++
      [.storeAnswer ((i - 1 : Nat) : Int) q.text content visuals.length],
     ⟨q.id, content, visuals⟩)
  | .failure m =>
    let fallback := "Error generating answer: " ++ m
    (pre :: generateAnswerEvents q.id (.failure m) ++
      [.storeAnswer ((i - 1 : Nat) : Int) q.text fallback 0],
     ⟨q.id, fallback, []⟩)

/-- The stage-3 loop over all questions, threading the 1-based counter. -/
def answerLoop (gen : Nat → GenOutcome) (n : Nat) :
    List Question → Nat → List Action × List AnswerRec
  | [], _ => ([], [])
  | q :: rest, i =>
    let step := answerStep n i q (gen (i - 1))
    let restRes := answerLoop gen n rest (i + 1)
    (step.1 ++ restRes.1, step.2 :: restRes.2)

/-- The inner stage-4 loop over one answer's visual elements (lines 244-261):
a success increments `processed_elements` and emits a progress event, a
`DiagramGenerationError` is skipped.  Returns the events, the updated
`processed_elements`, and how many diagrams this answer produced. -/
def diagramElemLoop (total : Nat) : Nat → List Bool → List Action × Nat × Nat
  | processed, [] => ([], processed, 0)
  | processed, ok :: rest =>
    if ok then
      let p := processed + 1
      let r := diagramElemLoop total p rest
      (.emit false "generating_diagram" (65 + p * 10 / total)
          ("Generated diagram " ++ toString p ++ "/" ++ toString total)
        :: r.1, r.2.1, r.2.2 + 1)
    else
      diagramElemLoop total processed rest

/-- The outer stage-4 loop over answers (lines 242-264), accumulating
`diagrams_by_answer` (question id ↦ diagram count, only for answers with at
least one successful diagram). -/
def diagramAnswerLoop (total : Nat) :
    Nat → List AnswerRec → List (String × Nat) → List Action × List (String × Nat)
  | _, [], acc => ([], acc)
  | processed, a :: rest, acc =>
    let r := diagramElemLoop total processed a.visuals
    let acc2 := if 0 < r.2.2 then setK a.question_id r.2.2 acc else acc
    let rr := diagramAnswerLoop total r.2.1 rest acc2
    (r.1 ++ rr.1, rr.2)

/-- Stage 4 of the pipeline (lines 233-271): emit the 65% event, run the
diagram loops when there are visual elements, emit the 75% event. -/
def stage4 (answers : List AnswerRec) : List Action × List (String × Nat) :=
  let total := (answers.map (fun a => a.visuals.length)).sum
  let head : Action := .emit false "generating_diagrams" 65 "Generating diagrams"
  let tail : Action := .emit false "diagrams_complete" 75
    "Diagram generation complete"
  if 0 < total then
    let r := diagramAnswerLoop total 0 answers []
    (head :: r.1 ++ [tail], r.2)
  else
    ([head, tail], [])

/-- The `try` block of `process_question_paper` (lines 66-313): the writes it
performs in order, and either the success `result_data` or the exception that
escapes to the top-level handler. -/
def process_question_paper_try (env : PipelineEnv) :
    List Action × Except PyErr ResultData :=
  let start : List Action :=
    [ .setStatus .processing,
      .emit false "initializing" 0 "Initializing processing",
      .emit false "parsing" 5 "Parsing input file" ]
  match env.parse with
  | .error pe => (start, .error pe)
  | .ok questions =>
    if questions.isEmpty then
      (start, .error parseErrorTypeError)
    else
      let n := questions.length
      let acts1 := start ++
        [ .emit false "parsing_complete" 15
            ("Successfully parsed " ++ toString n ++ " questions"),
          .emit false "initializing_services" 20 "Initializing services" ]
      match env.init with
      | some e => (acts1, .error e)
      | none =>
        let acts2 := acts1 ++
          [ .emit false "generating_answers" 25
              ("Generating answers for " ++ toString n ++ " questions") ]
        let gl := answerLoop env.gen n questions 1
        let acts3 := acts2 ++ gl.1 ++
          [ .emit false "answers_complete" 60
              ("Successfully generated " ++ toString gl.2.length ++ " answers") ]
        let st4 := stage4 gl.2
        let acts4 := acts3 ++ st4.1 ++
          [ .emit false "generating_pdf" 80 "Generating PDF document" ]
        match env.pdf with
        | .error e => (acts4, .error e)
        | .ok fp =>
          let acts5 := acts4 ++
            [ .emit false "pdf_complete" 90 "PDF generation complete",
              .emit false "storing_pdf" 95 "Storing PDF" ]
          match env.save with
          | .error e => (acts5, .error e)
          | .ok pdfId =>
            let result := ResultData.ok pdfId fp.1 fp.2 n gl.2.length
              ((st4.2.map (fun kv => kv.2)).sum)
            (acts5 ++
              [ .storeResult result,
                .setStatus .complete,
                .emit false "complete" 100 "Processing complete" ],
             .ok result)

/-- The whole of `process_question_paper` (lines 26-348): the `try` body,
the `except` handler (store the error result, set status ERROR, emit the 0%
error event, re-raise), and the `finally` cleanup of the uploaded file. -/
def process_question_paper (env : PipelineEnv) :
    List Action × Except PyErr ResultData :=
  let body := process_question_paper_try env
  let cleanup : List Action := if env.fileExists then [.removeFile] else []
  match body.2 with
  | .ok r => (body.1 ++ cleanup, .ok r)
  | .error e =>
    (body.1 ++
      [ .storeResult (.err e.msg e.ty (format_exc e)),
        .setStatus .error,
        .emit false "error" 0 ("Processing failed: " ++ e.msg) ] ++ cleanup,
     .error e)

/-- The retry loop of `AnswerGenerator._generate_answer_with_llm`
(lines 243-274), continued from `attempt`; `call a` is the outcome of the
wrapped provider call on attempt `a` (0-based), `last_error` the error of the
previous attempt.  Returns the final result, the number of calls made from
this point, and the list of back-off delays slept (in seconds). -/
def retryFrom (call : Nat → Except String String) (max_retries : Nat)
    (attempt : Nat) (last_error : Option String) :
    Except String String × Nat × List Nat :=
  if _h : attempt < max_retries then
    match call attempt with
    | .ok r => (.ok r, 1, [])
    | .error e =>
      if attempt < max_retries - 1 then
        let r := retryFrom call max_retries (attempt + 1) (some e)
        (r.1, r.2.1 + 1, 2 ^ attempt :: r.2.2)
      else
        (.error ("Failed to generate answer after " ++ toString max_retries ++
          " attempts. Last error: " ++ e), 1, [])
  else
    (.error ("Failed to generate answer after " ++ toString max_retries ++
      " attempts. Last error: " ++ last_error.getD "None"), 0, [])
termination_by max_retries - attempt

/-- `AnswerGenerator._generate_answer_with_llm`, abstracted over the provider
call; `max_retries` defaults to 3 in `AnswerGenerator.__init__` and is not
overridden by `tasks.py`. -/
def generate_answer_with_llm (call : Nat → Except String String)
    (max_retries : Nat) : Except String String × Nat × List Nat :=
  retryFrom call max_retries 0 none

/-- Python `answers[i]` on a list: non-negative indices from the front,
negative indices from the back, `IndexError` outside `[-len, len)`. -/
def pyGet {α : Type} (l : List α) (i : Int) : Option α :=
  if 0 ≤ i then l[i.toNat]?
  else if 0 ≤ i + l.length then l[(i + l.length).toNat]?
  else none

/-- What the `regenerate_answer` route returns. -/
inductive RegenOutcome where
  | httpError (code : Nat) (detail : String)
  | ok (question_index : Int) (answer : String)
deriving DecidableEq, Repr

/-- The `regenerate_answer` endpoint of `main.py` (lines 385-491), abstracted
over the successful generation call: `generate t` is the `.content` of
`answer_generator.generate_answer` on the modified question text `t`
(generation failure, like the session-id format check, would surface as
another 500/400 and is not modelled).  Mirrors: 404 when the session is
missing, 400 when `question_index >= len(answers)`, the Python negative
indexing of `answers[question_index]` (an `IndexError` is caught by the
generic handler as a 500), and the final `update_answer`. -/
def regenerate_answer (s : Store) (session_id : String) (question_index : Int)
    (change_request : String) (generate : String → String) (now : Nat) :
    Store × RegenOutcome :=
  match get_session s session_id with
  | none => (s, .httpError 404 "Session not found")
  | some _ =>
    let answers := get_answers s session_id
    if (answers.length : Int) ≤ question_index then
      (s, .httpError 400 "Invalid question index")
    else
      match pyGet answers question_index with
      | none => (s, .httpError 500
          "Failed to regenerate answer: list index out of range")
      | some current =>
        let modified := current.question ++ "\n\n[Modification request: " ++
          change_request ++ "]"
        let new_content := generate modified
        (update_answer s session_id question_index new_content now,
         .ok question_index new_content)

/-- The sequence of session-status writes in a trace, in order. -/
def statusWrites (tr : List Action) : List SessionStatus :=
  tr.filterMap (fun a => match a with
    | .setStatus st => some st
    | _ => none)

/-- The percentages of all progress events in a trace, in order. -/
def progressValues (tr : List Action) : List Nat :=
  tr.filterMap (fun a => match a with
    | .emit _ _ p _ => some p
    | _ => none)

/-- The percentages of the progress events emitted directly by the
orchestrator (not through `answer_progress_callback`), in order. -/
def orchestratorProgress (tr : List Action) : List Nat :=
  tr.filterMap (fun a => match a with
    | .emit false _ p _ => some p
    | _ => none)

/-- The `store_answer` (AnswerPreview) writes in a trace, in order:
(index, question text, answer text, diagrams count). -/
def answerWrites (tr : List Action) : List (Int × String × String × Nat) :=
  tr.filterMap (fun a => match a with
    | .storeAnswer i q ans d => some (i, q, ans, d)
    | _ => none)

/-- The `store_result` writes in a trace, in order. -/
def resultWrites (tr : List Action) : List ResultData :=
  tr.filterMap (fun a => match a with
    | .storeResult d => some d
    | _ => none)

/-- How often the trace deletes the uploaded input file. -/
def removeFileCount (tr : List Action) : Nat :=
  tr.countP (fun a => match a with
    | .removeFile => true
    | _ => false)

/-- The answer text the stage-3 loop records for a question: the generated
content on success, the fallback `f"Error generating answer: {str(e)}"` on
failure. -/
def genContent : GenOutcome → String
  | .success c _ => c
  | .failure m => "Error generating answer: " ++ m

/-- The `diagrams_count` the stage-3 loop records for a question. -/
def genDiagramsCount : GenOutcome → Nat
  | .success _ v => v.length
  | .failure _ => 0

/-- The spec's words for the Progress Reporter remap, for comparison with the
code's `overall_progress`: `global = lo + round((local/100) * (hi-lo))`. -/
def progressRemapSpec (lo hi lcl : Nat) : Int :=
  (lo : Int) + round ((lcl : ℚ) / 100 * ((hi : ℚ) - (lo : ℚ)))

/-- A one-question all-success environment. -/
def envC3 : PipelineEnv :=
  { parse := .ok [⟨"q_1", "What is recursion?"⟩],
    init := none,
    gen := fun _ => .success "Recursion is self-reference." [],
    pdf := .ok ("answers.pdf", 2),
    save := .ok "pdf-1",
    fileExists := true }

/-- A two-question environment in which generation for the first question
exhausts its retries and the second succeeds. -/
def envC2 : PipelineEnv :=
  { parse := .ok [⟨"q_1", "Q one"⟩, ⟨"q_2", "Q two"⟩],
    init := none,
    gen := fun p => if p = 0 then .failure "LLM unavailable"
      else .success "A real answer." [],
    pdf := .ok ("answers.pdf", 3),
    save := .ok "pdf-2",
    fileExists := true }

/-- An environment whose input extraction returns zero questions. -/
def envC6 : PipelineEnv :=
  { parse := .ok [],
    init := none,
    gen := fun _ => .success "unused" [],
    pdf := .ok ("unused.pdf", 1),
    save := .ok "unused",
    fileExists := true }

/-- An environment that fails at the parsing stage (the wrapper path, which
surfaces the one-argument `ParseError` construction's `TypeError`). -/
def envC7 : PipelineEnv :=
  { parse := .error parseErrorTypeError,
    init := none,
    gen := fun _ => .success "unused" [],
    pdf := .ok ("unused.pdf", 1),
    save := .ok "unused",
    fileExists := true }

/-- A one-question all-success environment with one visual element. -/
def envC1 : PipelineEnv :=
  { parse := .ok [⟨"q_1", "Draw a flowchart."⟩],
    init := none,
    gen := fun _ => .success "Here is a flowchart." [true],
    pdf := .ok ("answers.pdf", 4),
    save := .ok "pdf-3",
    fileExists := true }

/-- A store holding one processed session `"s"` with two preview entries,
both written at time 0. -/
def storeC8 : Store :=
  { sessions := [("s",
      ⟨some "s", some "complete", some "en", some 0, some "{}",
       some 100, some "complete"⟩)],
    progress := [],
    results := [],
    answers := [("s",
      [⟨0, "Q zero", "A zero", 0, 0⟩, ⟨1, "Q one", "A one", 0, 0⟩])] }

/-- A store holding one processed session `"s"` with a single preview entry. -/
def storeC10 : Store :=
  { sessions := [("s",
      ⟨some "s", some "complete", some "en", some 0, some "{}",
       some 100, some "complete"⟩)],
    progress := [],
    results := [],
    answers := [("s", [⟨0, "Q zero", "A zero", 0, 0⟩])] }

/-- A store holding one processed session `"s"` with two preview entries. -/
def storeC10w : Store :=
  { sessions := [("s",
      ⟨some "s", some "complete", some "en", some 0, some "{}",
       some 100, some "complete"⟩)],
    progress := [],
    results := [],
    answers := [("s",
      [⟨0, "Q zero", "A zero", 0, 0⟩, ⟨1, "Q one", "A one", 0, 0⟩])] }

/-- Classifier for trace actions produced inside the stage-3 loop: progress
events and preview writes only. -/
def isLoopAction : Action → Bool
  | .emit _ _ _ _ => true
  | .storeAnswer _ _ _ _ => true
  | _ => false

/-- Classifier for trace actions that are progress events. -/
def isEmit : Action → Bool
  | .emit _ _ _ _ => true
  | _ => false

/-- The number of successfully rendered diagrams across all answers (the
`visuals` flags that are `true`). -/
def totalTrue (ans : List AnswerRec) : Nat :=
  (ans.map (fun a => a.visuals.count true)).sum

/-! Helper lemmas about the association-list keyspace. -/

theorem getK_setK_self {α : Type} (k : String) (v : α)
    (m : List (String × α)) : getK k (setK k v m) = some v := by
  induction m with
  | nil => simp [getK, setK]
  | cons kv rest ih =>
    by_cases h : kv.1 = k
    · simp [setK, h, getK]
    · simp [setK, h, getK, ih]

theorem getK_map_upd_self {α : Type} (sid : String) (f : α → α)
    (m : List (String × α)) :
    getK sid (m.map (fun kv => if kv.1 = sid then (kv.1, f kv.2) else kv)) =
      (getK sid m).map f := by
  induction m with
  | nil => simp [getK]
  | cons kv rest ih =>
    by_cases h : kv.1 = sid
    · simp [getK, h]
    · simp [getK, h, ih]

theorem getK_map_upd_ne {α : Type} (sid sid2 : String) (h : sid2 ≠ sid)
    (f : α → α) (m : List (String × α)) :
    getK sid2 (m.map (fun kv => if kv.1 = sid then (kv.1, f kv.2) else kv)) =
      getK sid2 m := by
  induction m with
  | nil => simp [getK]
  | cons kv rest ih =>
    by_cases hk : kv.1 = sid
    · have hss : sid ≠ sid2 := fun hc => h hc.symm
      simp [getK, hk, hss, ih]
    · simp [getK, hk, ih]

theorem updateFirstAnswer_no_match (qi : Int) (txt : String) (now : Nat)
    (l : List AnswerEntry) (h : ∀ e ∈ l, e.index ≠ qi) :
    updateFirstAnswer qi txt now l = l := by
  induction l with
  | nil => rfl
  | cons a rest ih =>
    have ha : a.index ≠ qi := h a (by simp)
    simp only [updateFirstAnswer, if_neg ha]
    rw [ih (fun e he => h e (by simp [he]))]

theorem updateFirstAnswer_set (txt : String) (now : Nat) :
    ∀ (l : List AnswerEntry) (off k : Nat),
      (∀ j e, l[j]? = some e → e.index = ((off + j : Nat) : Int)) →
      ∀ e, l[k]? = some e →
      updateFirstAnswer ((off + k : Nat) : Int) txt now l =
        l.set k { e with answer := txt, timestamp := now } := by
  intro l
  induction l with
  | nil => intro off k _ e he; simp at he
  | cons a rest ih =>
    intro off k hidx e he
    have ha : a.index = ((off : Nat) : Int) := by
      have := hidx 0 a (by simp)
      simpa using this
    cases k with
    | zero =>
      have hae : a = e := by simpa using he
      subst hae
      simp [updateFirstAnswer, ha]
    | succ k =>
      have hne : a.index ≠ ((off + 1 + k : Nat) : Int) := by
        rw [ha]
        intro hc
        omega
      have he2 : rest[k]? = some e := by simpa using he
      have hidx2 : ∀ j e2, rest[j]? = some e2 →
          e2.index = ((off + 1 + j : Nat) : Int) := by
        intro j e2 hj
        have := hidx (j + 1) e2 (by simpa using hj)
        rw [this]
        congr 1
        omega
      rw [show ((off + (k + 1) : Nat) : Int) = ((off + 1 + k : Nat) : Int)
        from by omega]
      simp only [updateFirstAnswer, if_neg hne]
      rw [ih (off + 1) k hidx2 e he2]
      rfl

theorem index_map_pointwise (l : List AnswerEntry)
    (h : l.map (fun e => e.index) =
      List.map (fun j : Nat => (j : Int)) (List.range l.length)) :
    ∀ j e, l[j]? = some e → e.index = ((j : Nat) : Int) := by
  intro j e hj
  have hjl : j < l.length := by
    by_contra hge
    rw [List.getElem?_eq_none (by omega)] at hj
    exact Option.noConfusion hj
  have h1 : (l.map (fun e => e.index))[j]? = some e.index := by
    rw [List.getElem?_map, hj]
    rfl
  rw [h, List.getElem?_map, List.getElem?_range hjl] at h1
  simpa using h1.symm

/-! ### C9 -/

/-- C9: a session that has been created but has received no progress event is
visible through `get_session` (a PENDING record) but invisible through
`get_latest_progress`, which also returns `None` for a nonexistent session —
so a poller cannot tell the two apart via `get_latest_progress`. -/
theorem C9_created_session_has_no_latest_progress (s : Store)
    (sid language metadata : String) (now : Nat)
    (hfresh : getK sid s.sessions = none) :
    get_session (create_session s sid language metadata now) sid =
      some ⟨some sid, some "pending", some language, some now, some metadata,
            none, none⟩ ∧
    get_latest_progress (create_session s sid language metadata now) sid =
      none ∧
    get_latest_progress s sid = none := by
  refine ⟨?_, ?_, ?_⟩
  · simp [get_session, create_session, updK, hfresh, getK_setK_self,
      emptyRecord, SessionRecord.isEmpty, SessionStatus.value]
  · simp [get_latest_progress, create_session, updK, hfresh, getK_setK_self,
      emptyRecord, SessionStatus.value]
  · simp [get_latest_progress, hfresh, emptyRecord]

/-- Witness for C9 on a concrete empty store. -/
theorem C9_witness :
    get_session (create_session (Store.mk [] [] [] []) "s1" "en" "{}" 0) "s1" =
      some ⟨some "s1", some "pending", some "en", some 0, some "{}",
            none, none⟩ ∧
    get_latest_progress (create_session (Store.mk [] [] [] []) "s1" "en" "{}" 0)
      "s1" = none ∧
    get_latest_progress (Store.mk [] [] [] []) "s1" = none :=
  C9_created_session_has_no_latest_progress (Store.mk [] [] [] []) "s1" "en"
    "{}" 0 rfl

/-! ### C4 -/

/-- C4 counterexample: at local percentage 2 the code's
`answer_progress_callback` produces 20 (truncation), while the spec's
`lo + round((local/100)*(hi-lo))` formula produces 21, so the claim's `round`
is wrong for the code. -/
theorem C4_counterexample :
    overall_progress 2 = 20 ∧ progressRemapSpec 20 60 2 = 21 ∧
    (overall_progress 2 : Int) ≠ progressRemapSpec 20 60 2 := by
  have h : progressRemapSpec 20 60 2 = 21 := by
    have h1 : ((2 : ℕ) : ℚ) / 100 * (((60 : ℕ) : ℚ) - ((20 : ℕ) : ℚ)) =
        4 / 5 := by norm_num
    have h2 : round ((4 : ℚ) / 5) = 1 := by
      rw [round_eq]
      have : (4 : ℚ) / 5 + 1 / 2 = 13 / 10 := by norm_num
      rw [this]
      rw [Int.floor_eq_iff]
      constructor <;> norm_num
    rw [progressRemapSpec, h1, h2]
    norm_num
  refine ⟨rfl, h, ?_⟩
  rw [h]
  decide

/-- C4 amended: for every local percentage in 0..100, the global percentage
appended by `answer_progress_callback` is `lo + floor((local/100)*(hi-lo))`
with `[lo, hi] = [20, 60]` — truncation, not rounding. -/
theorem C4_amended (lcl : Nat) (_h : lcl ≤ 100) :
    (overall_progress lcl : Int) =
      20 + ⌊(lcl : ℚ) / 100 * ((60 : ℚ) - 20)⌋ := by
  have h1 : (lcl : ℚ) / 100 * ((60 : ℚ) - 20) =
      ((lcl * 40 : ℕ) : ℚ) / ((100 : ℕ) : ℚ) := by
    push_cast
    ring
  have h2 : ⌊((lcl * 40 : ℕ) : ℚ) / ((100 : ℕ) : ℚ)⌋ =
      ((lcl * 40 / 100 : ℕ) : ℤ) := by
    rw [← Nat.floor_div_eq_div (α := ℚ) (lcl * 40) 100]
    rw [← Int.natCast_floor_eq_floor]
    positivity
  rw [h1, h2, overall_progress]
  push_cast
  ring

/-- Witness for C4 amended at local percentage 7. -/
theorem C4_amended_witness :
    (overall_progress 7 : Int) = 20 + ⌊(7 : ℚ) / 100 * ((60 : ℚ) - 20)⌋ := by
  have := C4_amended 7 (by norm_num)
  simpa using this

/-! ### C5 -/

theorem range_pow_shift (b m : Nat) :
    (List.range (m + 1)).map (fun a => 2 ^ (b + a)) =
      2 ^ b :: (List.range m).map (fun a => 2 ^ (b + 1 + a)) := by
  rw [List.range_succ_eq_map, List.map_cons, List.map_map]
  refine congrArg₂ _ (by simp) ?_
  refine congrArg₂ _ ?_ rfl
  funext a
  simp only [Function.comp]
  congr 1
  omega

theorem retryFrom_bounds (call : Nat → Except String String)
    (max_retries : Nat) :
    ∀ d attempt last, max_retries - attempt = d →
      (retryFrom call max_retries attempt last).2.1 ≤ d ∧
      (attempt < max_retries →
        1 ≤ (retryFrom call max_retries attempt last).2.1) ∧
      (retryFrom call max_retries attempt last).2.2 =
        (List.range ((retryFrom call max_retries attempt last).2.1 - 1)).map
          (fun a => 2 ^ (attempt + a)) := by
  intro d
  induction d with
  | zero =>
    intro attempt last hd
    have hge : ¬ attempt < max_retries := by omega
    rw [retryFrom]
    simp [hge]
  | succ d ih =>
    intro attempt last hd
    have hlt : attempt < max_retries := by omega
    rw [retryFrom]
    simp only [dif_pos hlt]
    cases hc : call attempt with
    | ok r =>
      exact ⟨by simp, fun _ => by simp, by simp⟩
    | error e =>
      by_cases hmid : attempt < max_retries - 1
      · have hd2 : max_retries - (attempt + 1) = d := by omega
        have hrec := ih (attempt + 1) (some e) hd2
        have h1 : 1 ≤ (retryFrom call max_retries (attempt + 1) (some e)).2.1 :=
          hrec.2.1 (by omega)
        simp only [if_pos hmid]
        refine ⟨by simpa using Nat.add_le_add_right hrec.1 1,
          fun _ => by simp, ?_⟩
        rw [show (retryFrom call max_retries (attempt + 1) (some e)).2.1 + 1 - 1 =
          ((retryFrom call max_retries (attempt + 1) (some e)).2.1 - 1) + 1 from by omega]
        rw [range_pow_shift, hrec.2.2]
      · simp [if_neg hmid]

theorem retryFrom_all_fail (call : Nat → Except String String)
    (max_retries : Nat) (e : Nat → String)
    (hfail : ∀ a, a < max_retries → call a = .error (e a)) :
    ∀ d attempt last, max_retries - attempt = d + 1 →
      retryFrom call max_retries attempt last =
        (.error ("Failed to generate answer after " ++ toString max_retries ++
           " attempts. Last error: " ++ e (max_retries - 1)),
         max_retries - attempt,
         (List.range (max_retries - 1 - attempt)).map
           (fun a => 2 ^ (attempt + a))) := by
  intro d
  induction d with
  | zero =>
    intro attempt last hd
    have hlt : attempt < max_retries := by omega
    have hlast : attempt = max_retries - 1 := by omega
    have hmid : ¬ attempt < max_retries - 1 := by omega
    have h3 : max_retries - 1 - attempt = 0 := by omega
    rw [retryFrom]
    simp only [dif_pos hlt, hfail attempt hlt, if_neg hmid, Prod.mk.injEq]
    refine ⟨by rw [hlast], by omega, by rw [h3]; simp⟩
  | succ d ih =>
    intro attempt last hd
    have hlt : attempt < max_retries := by omega
    have hmid : attempt < max_retries - 1 := by omega
    rw [retryFrom]
    simp only [dif_pos hlt, hfail attempt hlt, if_pos hmid]
    rw [ih (attempt + 1) (some (e attempt)) (by omega)]
    rw [show max_retries - 1 - attempt = (max_retries - 1 - (attempt + 1)) + 1
      from by omega]
    rw [range_pow_shift]
    rw [show max_retries - (attempt + 1) + 1 = max_retries - attempt from by omega]

/-- C5: the retry wrapper `_generate_answer_with_llm` makes at most
`max_retries` calls (3 by default), sleeps delays 2^0, 2^1, ... between
consecutive attempts, and when every attempt fails it makes exactly
`max_retries` calls and raises a single `AnswerGenerationError` embedding the
error of the last attempt, with no further calls. -/
theorem C5_retry (max_retries : Nat) (call : Nat → Except String String) :
    (generate_answer_with_llm call max_retries).2.1 ≤ max_retries ∧
    (generate_answer_with_llm call max_retries).2.2 =
      (List.range ((generate_answer_with_llm call max_retries).2.1 - 1)).map
        (fun a => 2 ^ a) ∧
    (∀ e : Nat → String, (∀ a, a < max_retries → call a = .error (e a)) →
      0 < max_retries →
      generate_answer_with_llm call max_retries =
        (.error ("Failed to generate answer after " ++ toString max_retries ++
           " attempts. Last error: " ++ e (max_retries - 1)),
         max_retries,
         (List.range (max_retries - 1)).map (fun a => 2 ^ a))) := by
  have hb := retryFrom_bounds call max_retries max_retries 0 none (by omega)
  refine ⟨by simpa [generate_answer_with_llm] using hb.1, ?_, ?_⟩
  · rw [generate_answer_with_llm, hb.2.2]
    simp
  · intro e hfail hpos
    have h := retryFrom_all_fail call max_retries e hfail (max_retries - 1) 0
      none (by omega)
    rw [generate_answer_with_llm, h]
    simp

/-- Witness for C5 with the default `max_retries = 3` and a provider call
that always fails: exactly 3 calls, delays 1 and 2 seconds, and the
aggregated error embeds the last failure. -/
theorem C5_retry_witness :
    generate_answer_with_llm
        (fun _ => (Except.error "boom" : Except String String)) 3 =
      (.error "Failed to generate answer after 3 attempts. Last error: boom",
       3, [1, 2]) := by
  rw [(C5_retry 3 (fun _ => (Except.error "boom" : Except String String))).2.2
    (fun _ => "boom") (fun _ _ => rfl) (by omega)]
  rfl

/-! ### C8 -/

/-- C8 counterexample: regenerating index 0 of `storeC8` at a later time (7)
rewrites the entry's timestamp as well as its answer, so the operation does
not change only `answerPreviews[0].answer`. -/
theorem C8_counterexample :
    get_answers (regenerate_answer storeC8 "s" 0 "make it simpler"
      (fun _ => "NEW") 7).1 "s" =
      [⟨0, "Q zero", "NEW", 0, 7⟩, ⟨1, "Q one", "A one", 0, 0⟩] ∧
    get_answers (regenerate_answer storeC8 "s" 0 "make it simpler"
      (fun _ => "NEW") 7).1 "s" ≠
      [⟨0, "Q zero", "NEW", 0, 0⟩, ⟨1, "Q one", "A one", 0, 0⟩] := by
  constructor <;> decide

/-- C8 amended: for every valid existing question index `k` (previews indexed
0..n-1 as the main run stores them), the regeneration sub-flow changes only
`answerPreviews[k].answer` and that entry's timestamp: every other preview
entry (all fields), the remaining fields of entry `k`, the session hash
(status included), the progress log, the stored result, and every other
session's data are unchanged, and the call returns the newly generated
answer. -/
theorem C8_amended (s : Store) (sid : String) (k : Nat) (req : String)
    (generate : String → String) (now : Nat)
    (hsess : (get_session s sid).isSome = true)
    (hidx : (get_answers s sid).map (fun e => e.index) =
      List.map (fun j : Nat => (j : Int))
        (List.range (get_answers s sid).length))
    (e : AnswerEntry) (he : (get_answers s sid)[k]? = some e) :
    (regenerate_answer s sid (k : Int) req generate now).1.sessions =
      s.sessions ∧
    (regenerate_answer s sid (k : Int) req generate now).1.progress =
      s.progress ∧
    (regenerate_answer s sid (k : Int) req generate now).1.results =
      s.results ∧
    (∀ sid2, sid2 ≠ sid →
      getK sid2 (regenerate_answer s sid (k : Int) req generate now).1.answers =
        getK sid2 s.answers) ∧
    get_answers (regenerate_answer s sid (k : Int) req generate now).1 sid =
      (get_answers s sid).set k
        { e with answer := generate (e.question ++ "\n\n[Modification request: "
            ++ req ++ "]"), timestamp := now } ∧
    (regenerate_answer s sid (k : Int) req generate now).2 =
      .ok (k : Int) (generate (e.question ++ "\n\n[Modification request: "
        ++ req ++ "]")) := by
  obtain ⟨r, hr⟩ := Option.isSome_iff_exists.mp hsess
  have hk : k < (get_answers s sid).length := by
    by_contra hge
    rw [List.getElem?_eq_none (by omega)] at he
    exact Option.noConfusion he
  have hvalid : ¬ ((get_answers s sid).length : Int) ≤ (k : Int) := by
    omega
  have hpy : pyGet (get_answers s sid) (k : Int) = some e := by
    rw [pyGet, if_pos (by omega)]
    simpa using he
  have hmain : regenerate_answer s sid (k : Int) req generate now =
      (update_answer s sid (k : Int)
        (generate (e.question ++ "\n\n[Modification request: " ++ req ++ "]"))
        now,
       .ok (k : Int)
        (generate (e.question ++ "\n\n[Modification request: " ++ req ++ "]"))) := by
    rw [regenerate_answer, hr]
    simp only [if_neg hvalid, hpy]
  rw [hmain]
  refine ⟨rfl, rfl, rfl, ?_, ?_, rfl⟩
  · intro sid2 hne
    exact getK_map_upd_ne sid sid2 hne _ s.answers
  · show (getK sid (s.answers.map (fun kv =>
      if kv.1 = sid then
        (kv.1, updateFirstAnswer (k : Int)
          (generate (e.question ++ "\n\n[Modification request: " ++ req ++ "]"))
          now kv.2)
      else kv))).getD [] = _
    rw [getK_map_upd_self]
    rcases hg : getK sid s.answers with _ | l0
    · exfalso
      rw [get_answers, hg] at he
      simp at he
    · have hl0 : get_answers s sid = l0 := by
        rw [get_answers, hg]
        rfl
      show updateFirstAnswer (k : Int)
        (generate (e.question ++ "\n\n[Modification request: " ++ req ++ "]"))
        now l0 = _
      rw [← hl0]
      have step := updateFirstAnswer_set
        (generate (e.question ++ "\n\n[Modification request: " ++ req ++ "]"))
        now (get_answers s sid) 0 k
        (fun j e2 hj => by
          rw [index_map_pointwise (get_answers s sid) hidx j e2 hj]
          congr 1
          omega) e he
      simpa using step

/-- Witness for C8 amended at index 0 of `storeC8`. -/
theorem C8_amended_witness :
    (regenerate_answer storeC8 "s" ((0 : Nat) : Int) "make it simpler"
      (fun _ => "NEW") 7).1.sessions = storeC8.sessions ∧
    (regenerate_answer storeC8 "s" ((0 : Nat) : Int) "make it simpler"
      (fun _ => "NEW") 7).1.progress = storeC8.progress ∧
    (regenerate_answer storeC8 "s" ((0 : Nat) : Int) "make it simpler"
      (fun _ => "NEW") 7).1.results = storeC8.results ∧
    (∀ sid2, sid2 ≠ "s" →
      getK sid2 (regenerate_answer storeC8 "s" ((0 : Nat) : Int)
        "make it simpler" (fun _ => "NEW") 7).1.answers =
        getK sid2 storeC8.answers) ∧
    get_answers (regenerate_answer storeC8 "s" ((0 : Nat) : Int)
      "make it simpler" (fun _ => "NEW") 7).1 "s" =
      (get_answers storeC8 "s").set 0
        { (⟨0, "Q zero", "A zero", 0, 0⟩ : AnswerEntry) with
          answer := (fun (_ : String) => "NEW")
            ("Q zero" ++ "\n\n[Modification request: " ++ "make it simpler"
              ++ "]"),
          timestamp := 7 } ∧
    (regenerate_answer storeC8 "s" ((0 : Nat) : Int) "make it simpler"
      (fun _ => "NEW") 7).2 =
      .ok ((0 : Nat) : Int) ((fun (_ : String) => "NEW")
        ("Q zero" ++ "\n\n[Modification request: " ++ "make it simpler"
          ++ "]")) :=
  C8_amended storeC8 "s" 0 "make it simpler" (fun _ => "NEW") 7 (by decide)
    (by decide) ⟨0, "Q zero", "A zero", 0, 0⟩ (by decide)

/-! ### C10 -/

/-- C10 counterexample: with a single stored preview, the negative index -2
passes the endpoint's only validation but the Python list access raises
`IndexError`, surfaced as a 500 error — the question text is not taken from
the end of the list and no generated answer is returned. -/
theorem C10_counterexample :
    regenerate_answer storeC10 "s" (-2) "req" (fun t => "GEN:" ++ t) 9 =
      (storeC10,
       .httpError 500 "Failed to regenerate answer: list index out of range") := by
  decide

/-- C10 amended: the index validation rejects only indices ≥ the number of
stored previews.  A negative index `k` with `-len ≤ k` passes validation, the
question text is taken from the entry at position `len + k` (counted from the
end), the update scans for a stored index equal to the negative `k`, finds
none (run-stored indices are non-negative), leaves every stored preview list
observationally unchanged, and the call still returns a newly generated
answer as if it had succeeded; a negative index `k < -len` instead raises an
index-out-of-range error surfaced as a 500 response, with the store
unchanged. -/
theorem C10_amended (s : Store) (sid : String) (k : Int) (req : String)
    (generate : String → String) (now : Nat)
    (hsess : (get_session s sid).isSome = true)
    (hneg : k < 0)
    (hpos : ∀ e ∈ get_answers s sid, 0 ≤ e.index) :
    (∀ e, 0 ≤ k + (get_answers s sid).length →
      (get_answers s sid)[(k + (get_answers s sid).length).toNat]? = some e →
      (regenerate_answer s sid k req generate now).1.sessions = s.sessions ∧
      (regenerate_answer s sid k req generate now).1.progress = s.progress ∧
      (regenerate_answer s sid k req generate now).1.results = s.results ∧
      (∀ sid2, get_answers (regenerate_answer s sid k req generate now).1 sid2 =
        get_answers s sid2) ∧
      (regenerate_answer s sid k req generate now).2 =
        .ok k (generate (e.question ++ "\n\n[Modification request: " ++ req
          ++ "]"))) ∧
    (k + (get_answers s sid).length < 0 →
      regenerate_answer s sid k req generate now =
        (s, .httpError 500
          "Failed to regenerate answer: list index out of range")) := by
  obtain ⟨r, hr⟩ := Option.isSome_iff_exists.mp hsess
  have hvalid : ¬ ((get_answers s sid).length : Int) ≤ k := by omega
  constructor
  · intro e hin he
    have hpy : pyGet (get_answers s sid) k = some e := by
      rw [pyGet, if_neg (by omega), if_pos hin]
      exact he
    have hmain : regenerate_answer s sid k req generate now =
        (update_answer s sid k
          (generate (e.question ++ "\n\n[Modification request: " ++ req ++ "]"))
          now,
         .ok k
          (generate (e.question ++ "\n\n[Modification request: " ++ req ++ "]"))) := by
      rw [regenerate_answer, hr]
      simp only [if_neg hvalid, hpy]
    rw [hmain]
    refine ⟨rfl, rfl, rfl, ?_, rfl⟩
    intro sid2
    by_cases hs2 : sid2 = sid
    · subst hs2
      show (getK sid2 (s.answers.map (fun kv =>
        if kv.1 = sid2 then
          (kv.1, updateFirstAnswer k
            (generate (e.question ++ "\n\n[Modification request: " ++ req ++ "]"))
            now kv.2)
        else kv))).getD [] = _
      rw [getK_map_upd_self]
      rcases hg : getK sid2 s.answers with _ | l0
      · show ((none : Option (List AnswerEntry)).map _).getD [] = _
        rw [get_answers, hg]
        rfl
      · have hl0 : get_answers s sid2 = l0 := by
          rw [get_answers, hg]
          rfl
        show updateFirstAnswer k
          (generate (e.question ++ "\n\n[Modification request: " ++ req ++ "]"))
          now l0 = _
        rw [updateFirstAnswer_no_match k
          (generate (e.question ++ "\n\n[Modification request: " ++ req ++ "]"))
          now l0 (fun e2 he2 => by
            have h0 := hpos e2 (by rw [hl0]; exact he2)
            omega)]
        exact hl0.symm
    · show (getK sid2 (s.answers.map (fun kv =>
        if kv.1 = sid then
          (kv.1, updateFirstAnswer k
            (generate (e.question ++ "\n\n[Modification request: " ++ req ++ "]"))
            now kv.2)
        else kv))).getD [] = _
      rw [getK_map_upd_ne sid sid2 hs2]
      rfl
  · intro hout
    have hpy : pyGet (get_answers s sid) k = none := by
      rw [pyGet, if_neg (by omega), if_neg (by omega)]
    rw [regenerate_answer, hr]
    simp only [if_neg hvalid, hpy]

/-- Witness for C10 amended: index -1 against two stored previews reads the
last entry, returns a regenerated answer, and changes nothing in the store. -/
theorem C10_amended_witness :
    (∀ e, 0 ≤ (-1 : Int) + ((get_answers storeC10w "s").length : Int) →
      (get_answers storeC10w "s")[(((-1 : Int) +
        ((get_answers storeC10w "s").length : Int)).toNat)]? = some e →
      (regenerate_answer storeC10w "s" (-1) "r" (fun t => "GEN:" ++ t) 5).1.sessions =
        storeC10w.sessions ∧
      (regenerate_answer storeC10w "s" (-1) "r" (fun t => "GEN:" ++ t) 5).1.progress =
        storeC10w.progress ∧
      (regenerate_answer storeC10w "s" (-1) "r" (fun t => "GEN:" ++ t) 5).1.results =
        storeC10w.results ∧
      (∀ sid2, get_answers
        (regenerate_answer storeC10w "s" (-1) "r" (fun t => "GEN:" ++ t) 5).1 sid2 =
        get_answers storeC10w sid2) ∧
      (regenerate_answer storeC10w "s" (-1) "r" (fun t => "GEN:" ++ t) 5).2 =
        .ok (-1) ((fun t => "GEN:" ++ t) (e.question ++
          "\n\n[Modification request: " ++ "r" ++ "]"))) ∧
    ((-1 : Int) + ((get_answers storeC10w "s").length : Int) < 0 →
      regenerate_answer storeC10w "s" (-1) "r" (fun t => "GEN:" ++ t) 5 =
        (storeC10w, .httpError 500
          "Failed to regenerate answer: list index out of range")) :=
  C10_amended storeC10w "s" (-1) "r" (fun t => "GEN:" ++ t) 5 (by decide)
    (by decide) (by decide)

/-! Trace projection plumbing. -/

theorem statusWrites_append (t1 t2 : List Action) :
    statusWrites (t1 ++ t2) = statusWrites t1 ++ statusWrites t2 := by
  simp [statusWrites]

theorem progressValues_append (t1 t2 : List Action) :
    progressValues (t1 ++ t2) = progressValues t1 ++ progressValues t2 := by
  simp [progressValues]

theorem orchestratorProgress_append (t1 t2 : List Action) :
    orchestratorProgress (t1 ++ t2) =
      orchestratorProgress t1 ++ orchestratorProgress t2 := by
  simp [orchestratorProgress]

theorem answerWrites_append (t1 t2 : List Action) :
    answerWrites (t1 ++ t2) = answerWrites t1 ++ answerWrites t2 := by
  simp [answerWrites]

theorem resultWrites_append (t1 t2 : List Action) :
    resultWrites (t1 ++ t2) = resultWrites t1 ++ resultWrites t2 := by
  simp [resultWrites]

theorem removeFileCount_append (t1 t2 : List Action) :
    removeFileCount (t1 ++ t2) = removeFileCount t1 + removeFileCount t2 := by
  simp [removeFileCount]

theorem filter_none_of_loopActions (tr : List Action)
    (h : ∀ a ∈ tr, isLoopAction a = true) :
    statusWrites tr = [] ∧ resultWrites tr = [] ∧ removeFileCount tr = 0 := by
  induction tr with
  | nil => simp [statusWrites, resultWrites, removeFileCount]
  | cons a rest ih =>
    have ha := h a (by simp)
    have hrest := ih (fun x hx => h x (by simp [hx]))
    cases a with
    | setStatus st => simp [isLoopAction] at ha
    | storeResult d => simp [isLoopAction] at ha
    | removeFile => simp [isLoopAction] at ha
    | emit b st p m =>
      simpa [statusWrites, resultWrites, removeFileCount] using hrest
    | storeAnswer i q ans d =>
      simpa [statusWrites, resultWrites, removeFileCount] using hrest

theorem filter_none_of_emits (tr : List Action)
    (h : ∀ a ∈ tr, isEmit a = true) :
    statusWrites tr = [] ∧ resultWrites tr = [] ∧ removeFileCount tr = 0 ∧
    answerWrites tr = [] := by
  induction tr with
  | nil => simp [statusWrites, resultWrites, removeFileCount, answerWrites]
  | cons a rest ih =>
    have ha := h a (by simp)
    have hrest := ih (fun x hx => h x (by simp [hx]))
    cases a with
    | setStatus st => simp [isEmit] at ha
    | storeResult d => simp [isEmit] at ha
    | removeFile => simp [isEmit] at ha
    | storeAnswer i q ans d => simp [isEmit] at ha
    | emit b st p m =>
      simpa [statusWrites, resultWrites, removeFileCount, answerWrites]
        using hrest

theorem loopActions_answerStep (n i : Nat) (q : Question) (g : GenOutcome) :
    ∀ a ∈ (answerStep n i q g).1, isLoopAction a = true := by
  intro a ha
  cases g with
  | success c v =>
    simp [answerStep, generateAnswerEvents] at ha
    rcases ha with rfl | rfl | rfl | rfl | rfl | rfl | rfl | rfl <;> rfl
  | failure m =>
    simp [answerStep, generateAnswerEvents] at ha
    rcases ha with rfl | rfl | rfl | rfl | rfl <;> rfl

theorem loopActions_answerLoop (gen : Nat → GenOutcome) (n : Nat) :
    ∀ (qs : List Question) (i : Nat), ∀ a ∈ (answerLoop gen n qs i).1,
      isLoopAction a = true := by
  intro qs
  induction qs with
  | nil => intro i a ha; simp [answerLoop] at ha
  | cons q rest ih =>
    intro i a ha
    simp only [answerLoop, List.mem_append] at ha
    rcases ha with h1 | h1
    · exact loopActions_answerStep n i q (gen (i - 1)) a h1
    · exact ih (i + 1) a h1

theorem emits_diagramElemLoop (total : Nat) :
    ∀ (bs : List Bool) (p : Nat), ∀ a ∈ (diagramElemLoop total p bs).1,
      isEmit a = true := by
  intro bs
  induction bs with
  | nil => intro p a ha; simp [diagramElemLoop] at ha
  | cons b rest ih =>
    intro p a ha
    cases b with
    | true =>
      simp only [diagramElemLoop, if_pos] at ha
      rcases List.mem_cons.mp ha with rfl | h1
      · rfl
      · exact ih (p + 1) a h1
    | false =>
      simp only [diagramElemLoop, if_neg] at ha
      exact ih p a ha

theorem emits_diagramAnswerLoop (total : Nat) :
    ∀ (ans : List AnswerRec) (p : Nat) (acc : List (String × Nat)),
      ∀ a ∈ (diagramAnswerLoop total p ans acc).1, isEmit a = true := by
  intro ans
  induction ans with
  | nil => intro p acc a ha; simp [diagramAnswerLoop] at ha
  | cons x rest ih =>
    intro p acc a ha
    simp only [diagramAnswerLoop, List.mem_append] at ha
    rcases ha with h1 | h1
    · exact emits_diagramElemLoop total x.visuals p a h1
    · exact ih _ _ a h1

theorem emits_stage4 (ans : List AnswerRec) :
    ∀ a ∈ (stage4 ans).1, isEmit a = true := by
  intro a ha
  rw [stage4] at ha
  by_cases ht : 0 < (ans.map (fun x => x.visuals.length)).sum
  · simp only [if_pos ht, List.mem_append, List.mem_cons, List.mem_singleton]
      at ha
    rcases ha with (rfl | h1) | (rfl | h2)
    · rfl
    · exact emits_diagramAnswerLoop _ ans 0 [] a h1
    · rfl
    · exact absurd h2 (List.not_mem_nil a)
  · simp only [if_neg ht, List.mem_cons, List.mem_singleton,
      List.not_mem_nil, or_false] at ha
    rcases ha with rfl | rfl <;> rfl

@[simp] theorem statusWrites_nil : statusWrites [] = [] := rfl

@[simp] theorem statusWrites_cons (a : Action) (tr : List Action) :
    statusWrites (a :: tr) =
      (match a with | .setStatus st => [st] | _ => []) ++ statusWrites tr := by
  cases a <;> simp [statusWrites]

@[simp] theorem progressValues_nil : progressValues [] = [] := rfl

@[simp] theorem progressValues_cons (a : Action) (tr : List Action) :
    progressValues (a :: tr) =
      (match a with | .emit _ _ p _ => [p] | _ => []) ++ progressValues tr := by
  cases a <;> simp [progressValues]

@[simp] theorem orchestratorProgress_nil : orchestratorProgress [] = [] := rfl

@[simp] theorem orchestratorProgress_cons (a : Action) (tr : List Action) :
    orchestratorProgress (a :: tr) =
      (match a with
        | .emit false _ p _ => [p]
        | _ => []) ++ orchestratorProgress tr := by
  cases a with
  | emit b st p m => cases b <;> simp [orchestratorProgress]
  | setStatus st => simp [orchestratorProgress]
  | storeAnswer i q ans d => simp [orchestratorProgress]
  | storeResult d => simp [orchestratorProgress]
  | removeFile => simp [orchestratorProgress]

@[simp] theorem answerWrites_nil : answerWrites [] = [] := rfl

@[simp] theorem answerWrites_cons (a : Action) (tr : List Action) :
    answerWrites (a :: tr) =
      (match a with
        | .storeAnswer i q ans d => [(i, q, ans, d)]
        | _ => []) ++ answerWrites tr := by
  cases a <;> simp [answerWrites]

@[simp] theorem resultWrites_nil : resultWrites [] = [] := rfl

@[simp] theorem resultWrites_cons (a : Action) (tr : List Action) :
    resultWrites (a :: tr) =
      (match a with | .storeResult d => [d] | _ => []) ++ resultWrites tr := by
  cases a <;> simp [resultWrites]

@[simp] theorem removeFileCount_nil : removeFileCount [] = 0 := rfl

@[simp] theorem removeFileCount_cons (a : Action) (tr : List Action) :
    removeFileCount (a :: tr) =
      (match a with | .removeFile => 1 | _ => 0) + removeFileCount tr := by
  cases a <;> (simp [removeFileCount, List.countP_cons]; try omega)

/-- Complete case analysis of the `try` body: its trace always starts by
setting PROCESSING, never deletes the input file itself, and its status
writes are `[PROCESSING]` when it raises and
`[PROCESSING, COMPLETE]` when it returns. -/
theorem process_try_cases (env : PipelineEnv) :
    (process_question_paper_try env).1.head? =
      some (Action.setStatus SessionStatus.processing) ∧
    removeFileCount (process_question_paper_try env).1 = 0 ∧
    ((∃ e, (process_question_paper_try env).2 = Except.error e ∧
        statusWrites (process_question_paper_try env).1 =
          [SessionStatus.processing]) ∨
     (∃ r, (process_question_paper_try env).2 = Except.ok r ∧
        statusWrites (process_question_paper_try env).1 =
          [SessionStatus.processing, SessionStatus.complete])) := by
  rcases hp : env.parse with m | questions
  · refine ⟨by simp [process_question_paper_try, hp],
      by simp [process_question_paper_try, hp],
      Or.inl ⟨m, by simp [process_question_paper_try, hp],
        by simp [process_question_paper_try, hp]⟩⟩
  cases hq : questions.isEmpty
  case true =>
    refine ⟨by simp [process_question_paper_try, hp, hq],
      by simp [process_question_paper_try, hp, hq],
      Or.inl ⟨parseErrorTypeError,
        by simp [process_question_paper_try, hp, hq],
        by simp [process_question_paper_try, hp, hq]⟩⟩
  case false =>
  obtain ⟨hgl1, hgl2, hgl3⟩ := filter_none_of_loopActions _
    (loopActions_answerLoop env.gen questions.length questions 1)
  obtain ⟨hst1, hst2, hst3, hst4⟩ := filter_none_of_emits _
    (emits_stage4 (answerLoop env.gen questions.length questions 1).2)
  rcases hi : env.init with _ | e
  case some =>
    refine ⟨by simp [process_question_paper_try, hp, hq, hi],
      by simp [process_question_paper_try, hp, hq, hi],
      Or.inl ⟨e, by simp [process_question_paper_try, hp, hq, hi],
        by simp [process_question_paper_try, hp, hq, hi]⟩⟩
  case none =>
  rcases hpdf : env.pdf with pe | fp
  · refine ⟨?_, ?_, Or.inl ⟨pe, ?_, ?_⟩⟩ <;>
      simp [process_question_paper_try, hp, hq, hi, hpdf,
        statusWrites_append, removeFileCount_append, hgl1, hgl3, hst1, hst3]
  rcases hsave : env.save with pe | pid
  · refine ⟨?_, ?_, Or.inl ⟨pe, ?_, ?_⟩⟩ <;>
      simp [process_question_paper_try, hp, hq, hi, hpdf, hsave,
        statusWrites_append, removeFileCount_append, hgl1, hgl3, hst1, hst3]
  · refine ⟨?_, ?_, Or.inr ⟨ResultData.ok pid fp.1 fp.2 questions.length
      (answerLoop env.gen questions.length questions 1).2.length
      (((stage4 (answerLoop env.gen questions.length questions 1).2).2.map
        (fun kv => kv.2)).sum), ?_, ?_⟩⟩ <;>
      simp [process_question_paper_try, hp, hq, hi, hpdf, hsave,
        statusWrites_append, removeFileCount_append, hgl1, hgl3, hst1, hst3]

/-! ### C1 -/

/-- C1: every pipeline run writes PROCESSING first (its very first store
action), and its status writes are exactly `[PROCESSING, COMPLETE]` on
success and `[PROCESSING, ERROR]` on fatal failure — one terminal write,
no regression, and no status write after the terminal one. -/
theorem C1_status_monotonic (env : PipelineEnv) :
    (process_question_paper env).1.head? =
      some (Action.setStatus SessionStatus.processing) ∧
    (∀ r, (process_question_paper env).2 = Except.ok r →
      statusWrites (process_question_paper env).1 =
        [SessionStatus.processing, SessionStatus.complete]) ∧
    (∀ e, (process_question_paper env).2 = Except.error e →
      statusWrites (process_question_paper env).1 =
        [SessionStatus.processing, SessionStatus.error]) := by
  obtain ⟨hhead, hrm, hcases⟩ := process_try_cases env
  obtain ⟨t, ht⟩ : ∃ t, (process_question_paper_try env).1 =
      Action.setStatus SessionStatus.processing :: t := by
    rcases hb : (process_question_paper_try env).1 with _ | ⟨a, t⟩
    · rw [hb] at hhead
      simp at hhead
    · rw [hb] at hhead
      simp at hhead
      exact ⟨t, by rw [hhead]⟩
  have hclean : statusWrites
      (if env.fileExists then [Action.removeFile] else []) = [] := by
    cases env.fileExists <;> simp
  rcases hcases with ⟨e, he, hs⟩ | ⟨r, hr, hs⟩
  · refine ⟨?_, ?_, ?_⟩
    · rw [process_question_paper]
      simp only [he, ht]
      simp
    · intro r2 hr2
      rw [process_question_paper] at hr2
      simp only [he] at hr2
      exact absurd hr2 (by simp)
    · intro e2 he2
      rw [process_question_paper]
      simp only [he]
      simp [statusWrites_append, hs, hclean]
  · refine ⟨?_, ?_, ?_⟩
    · rw [process_question_paper]
      simp only [hr, ht]
      simp
    · intro r2 hr2
      rw [process_question_paper]
      simp only [hr]
      simp [statusWrites_append, hs, hclean]
    · intro e2 he2
      rw [process_question_paper] at he2
      simp only [hr] at he2
      exact absurd he2 (by simp)

/-- Witness for C1 on a concrete successful one-question run. -/
theorem C1_witness :
    (process_question_paper envC1).1.head? =
      some (Action.setStatus SessionStatus.processing) ∧
    statusWrites (process_question_paper envC1).1 =
      [SessionStatus.processing, SessionStatus.complete] :=
  ⟨(C1_status_monotonic envC1).1,
   (C1_status_monotonic envC1).2.1
     (ResultData.ok "pdf-3" "answers.pdf" 4 1 1 1) (by rfl)⟩

/-! ### C7 -/

/-- C7: on every exit path — success, isolated per-item error, or fatal
error, i.e. for every collaborator environment — the run deletes the
transient uploaded input file exactly once (the `finally` block, given the
file exists when it runs). -/
theorem C7_cleanup_exactly_once (env : PipelineEnv)
    (h : env.fileExists = true) :
    removeFileCount (process_question_paper env).1 = 1 := by
  have hb := (process_try_cases env).2.1
  rw [process_question_paper]
  rcases hres : (process_question_paper_try env).2 with e | r <;>
    simp [hres, removeFileCount_append, hb, h]

/-- Witness for C7 on a concrete parse-failure run. -/
theorem C7_witness : removeFileCount (process_question_paper envC7).1 = 1 :=
  C7_cleanup_exactly_once envC7 rfl

/-! ### C6 -/

/-- C6: when input extraction returns zero questions the run aborts fatally.
The guard at `tasks.py` line 82 tries to raise
`ParseError("No questions found in the input file")`, but that one-argument
construction itself raises a `TypeError` (`parseErrorTypeError`), so the run
stores exactly one error Result carrying that exception's message, its
category `TypeError` and a trace, sets status ERROR as its only terminal
status write, emits a final error event with percentage 0, stores zero
AnswerPreview entries, and removes the transient input file. -/
theorem C6_zero_questions_fatal (env : PipelineEnv)
    (hparse : env.parse = Except.ok [])
    (hfile : env.fileExists = true) :
    (process_question_paper env).2 = Except.error parseErrorTypeError ∧
    resultWrites (process_question_paper env).1 =
      [ResultData.err parseErrorTypeError.msg "TypeError"
        (format_exc parseErrorTypeError)] ∧
    statusWrites (process_question_paper env).1 =
      [SessionStatus.processing, SessionStatus.error] ∧
    (progressValues (process_question_paper env).1).getLast? = some 0 ∧
    answerWrites (process_question_paper env).1 = [] ∧
    removeFileCount (process_question_paper env).1 = 1 := by
  refine ⟨?_, ?_, ?_, ?_, ?_, ?_⟩ <;>
    simp [process_question_paper, process_question_paper_try, hparse, hfile,
      resultWrites_append, statusWrites_append, progressValues_append,
      answerWrites_append, removeFileCount_append, parseErrorTypeError]

/-- Witness for C6 on the concrete zero-question environment. -/
theorem C6_witness :
    (process_question_paper envC6).2 = Except.error parseErrorTypeError ∧
    resultWrites (process_question_paper envC6).1 =
      [ResultData.err parseErrorTypeError.msg "TypeError"
        (format_exc parseErrorTypeError)] ∧
    statusWrites (process_question_paper envC6).1 =
      [SessionStatus.processing, SessionStatus.error] ∧
    (progressValues (process_question_paper envC6).1).getLast? = some 0 ∧
    answerWrites (process_question_paper envC6).1 = [] ∧
    removeFileCount (process_question_paper envC6).1 = 1 :=
  C6_zero_questions_fatal envC6 rfl rfl

/-! ### C2 -/

theorem answerWrites_answerStep (n i : Nat) (q : Question) (g : GenOutcome) :
    answerWrites (answerStep n i q g).1 =
      [(((i - 1 : Nat) : Int), q.text, genContent g, genDiagramsCount g)] := by
  cases g <;>
    simp [answerStep, generateAnswerEvents, genContent, genDiagramsCount,
      answerWrites_append]

theorem answerWrites_answerLoop (gen : Nat → GenOutcome) (n : Nat) :
    ∀ (qs : List Question) (p : Nat),
      answerWrites (answerLoop gen n qs (p + 1)).1 =
        (List.enumFrom p qs).map (fun ia =>
          (((ia.1 : Nat) : Int), ia.2.text, genContent (gen ia.1),
           genDiagramsCount (gen ia.1))) := by
  intro qs
  induction qs with
  | nil => intro p; simp [answerLoop]
  | cons q rest ih =>
    intro p
    simp [answerLoop, answerWrites_append, answerWrites_answerStep, ih,
      List.enumFrom]

/-- C2: in every run that gets past parsing and service construction, the
stage-3 loop records exactly one AnswerPreview per question, in order, with
indices 0..n-1 and no gaps; a question whose generation exhausts its retries
gets exactly one preview whose answer text is the fallback
`"Error generating answer: " ++ msg` with zero diagrams, recorded like a
success; and the pipeline still completes successfully whenever the later
stages succeed, regardless of which generations failed. -/
theorem C2_per_question_isolation (env : PipelineEnv)
    (questions : List Question)
    (hparse : env.parse = Except.ok questions) (hne : questions ≠ [])
    (hinit : env.init = none) :
    (answerWrites (process_question_paper env).1).length = questions.length ∧
    (answerWrites (process_question_paper env).1).map (fun w => w.1) =
      List.map (fun j : Nat => (j : Int)) (List.range questions.length) ∧
    (∀ k m qk, env.gen k = GenOutcome.failure m → questions[k]? = some qk →
      (answerWrites (process_question_paper env).1)[k]? =
        some (((k : Nat) : Int), qk.text,
          "Error generating answer: " ++ m, 0)) ∧
    (∀ fp pid, env.pdf = Except.ok fp → env.save = Except.ok pid →
      ∃ r, (process_question_paper env).2 = Except.ok r) := by
  have hq : questions.isEmpty = false := by
    cases questions
    · exact absurd rfl hne
    · rfl
  have hst4 := (filter_none_of_emits _
    (emits_stage4 (answerLoop env.gen questions.length questions 1).2)).2.2.2
  have hclean : answerWrites
      (if env.fileExists then [Action.removeFile] else []) = [] := by
    cases env.fileExists <;> simp
  have hbody : answerWrites (process_question_paper_try env).1 =
      answerWrites (answerLoop env.gen questions.length questions 1).1 := by
    rcases hpdf : env.pdf with pe | fp
    · simp [process_question_paper_try, hparse, hq, hinit, hpdf,
        answerWrites_append, hst4]
    rcases hsave : env.save with pe | pid <;>
      simp [process_question_paper_try, hparse, hq, hinit, hpdf, hsave,
        answerWrites_append, hst4]
  have hfull : answerWrites (process_question_paper env).1 =
      answerWrites (answerLoop env.gen questions.length questions 1).1 := by
    rw [process_question_paper]
    rcases hres : (process_question_paper_try env).2 with e | r <;>
      simp [hres, answerWrites_append, hbody, hclean]
  have hcf := answerWrites_answerLoop env.gen questions.length questions 0
  norm_num at hcf
  refine ⟨?_, ?_, ?_, ?_⟩
  · rw [hfull, hcf]
    simp
  · rw [hfull, hcf, List.map_map]
    have hcomp : ((fun w : Int × String × String × Nat => w.1) ∘
        (fun ia : Nat × Question => (((ia.1 : Nat) : Int), ia.2.text,
          genContent (env.gen ia.1), genDiagramsCount (env.gen ia.1)))) =
        (fun j : Nat => (j : Int)) ∘ Prod.fst := rfl
    rw [hcomp, ← List.map_map]
    rw [show List.enumFrom 0 questions = questions.enum from rfl]
    rw [List.enum_map_fst]
  · intro k m qk hgen hqk
    rw [hfull, hcf, List.getElem?_map, List.getElem?_enumFrom, hqk]
    simp [genContent, genDiagramsCount, hgen]
  · intro fp pid hpdf hsave
    refine ⟨ResultData.ok pid fp.1 fp.2 questions.length
      (answerLoop env.gen questions.length questions 1).2.length
      (((stage4 (answerLoop env.gen questions.length questions 1).2).2.map
        (fun kv => kv.2)).sum), ?_⟩
    have htry : (process_question_paper_try env).2 =
        Except.ok (ResultData.ok pid fp.1 fp.2 questions.length
          (answerLoop env.gen questions.length questions 1).2.length
          (((stage4 (answerLoop env.gen questions.length questions 1).2).2.map
            (fun kv => kv.2)).sum)) := by
      simp [process_question_paper_try, hparse, hq, hinit, hpdf, hsave]
    rw [process_question_paper]
    simp [htry]

/-- Witness for C2: two questions, the first generation exhausts retries —
two previews, the first holding the fallback text, and the run completes. -/
theorem C2_witness :
    (answerWrites (process_question_paper envC2).1).length = 2 ∧
    (answerWrites (process_question_paper envC2).1)[0]? =
      some (((0 : Nat) : Int), "Q one",
        "Error generating answer: LLM unavailable", 0) ∧
    (∃ r, (process_question_paper envC2).2 = Except.ok r) := by
  obtain ⟨h1, h2, h3, h4⟩ := C2_per_question_isolation envC2
    [⟨"q_1", "Q one"⟩, ⟨"q_2", "Q two"⟩] rfl (by decide) rfl
  exact ⟨by simpa using h1,
    h3 0 "LLM unavailable" ⟨"q_1", "Q one"⟩ rfl rfl,
    h4 ("answers.pdf", 3) "pdf-2" rfl rfl⟩

/-! ### C3 -/

theorem chain'_le_append {l1 l2 : List Nat}
    (h1 : List.Chain' (fun x y => x ≤ y) l1)
    (h2 : List.Chain' (fun x y => x ≤ y) l2)
    (hc : ∀ x ∈ l1, ∀ y ∈ l2, x ≤ y) :
    List.Chain' (fun x y => x ≤ y) (l1 ++ l2) := by
  rw [List.chain'_append]
  refine ⟨h1, h2, ?_⟩
  intro x hx y hy
  exact hc x (List.mem_of_mem_getLast? hx) y (List.mem_of_mem_head? hy)

theorem chain'_le_map_range (f : Nat → Nat)
    (hf : ∀ a b, a ≤ b → f a ≤ f b) (n : Nat) :
    List.Chain' (fun x y => x ≤ y) (List.map f (List.range n)) :=
  List.Pairwise.chain'
    (List.Pairwise.map f (fun a b hab => hf a b (Nat.le_of_lt hab))
      (List.pairwise_lt_range n))

theorem map_range_succ_shift (f : Nat → Nat) (m : Nat) :
    List.map f (List.range (m + 1)) =
      f 0 :: List.map (fun j => f (j + 1)) (List.range m) := by
  rw [List.range_succ_eq_map, List.map_cons, List.map_map]
  rfl

theorem orch_answerStep (n i : Nat) (q : Question) (g : GenOutcome) :
    orchestratorProgress (answerStep n i q g).1 = [25 + i * 35 / n] := by
  cases g <;>
    simp [answerStep, generateAnswerEvents, orchestratorProgress_append]

theorem orch_answerLoop (gen : Nat → GenOutcome) (n : Nat) :
    ∀ (qs : List Question) (p : Nat),
      orchestratorProgress (answerLoop gen n qs (p + 1)).1 =
        List.map (fun j : Nat => 25 + (p + 1 + j) * 35 / n)
          (List.range qs.length) := by
  intro qs
  induction qs with
  | nil => intro p; simp [answerLoop]
  | cons q rest ih =>
    intro p
    rw [List.length_cons, map_range_succ_shift]
    simp only [answerLoop, orchestratorProgress_append, orch_answerStep,
      ih (p + 1), List.singleton_append]
    congr 1
    apply List.map_congr_left
    intro j _
    rw [show p + 1 + 1 + j = p + 1 + (j + 1) from by omega]

theorem diagramElemLoop_spec (total : Nat) :
    ∀ (bs : List Bool) (p : Nat),
      orchestratorProgress (diagramElemLoop total p bs).1 =
        List.map (fun j : Nat => 65 + (p + 1 + j) * 10 / total)
          (List.range (bs.count true)) ∧
      (diagramElemLoop total p bs).2.1 = p + bs.count true := by
  intro bs
  induction bs with
  | nil => intro p; simp [diagramElemLoop]
  | cons b rest ih =>
    intro p
    cases b with
    | false =>
      have h := ih p
      constructor
      · rw [show (false :: rest).count true = rest.count true from by
          simp [List.count_cons]]
        simpa [diagramElemLoop] using h.1
      · rw [show (false :: rest).count true = rest.count true from by
          simp [List.count_cons]]
        simpa [diagramElemLoop] using h.2
    | true =>
      have h := ih (p + 1)
      have hc : (true :: rest).count true = rest.count true + 1 := by
        simp [List.count_cons]
      constructor
      · rw [hc, map_range_succ_shift]
        simp only [diagramElemLoop, if_pos, orchestratorProgress_cons, h.1,
          List.singleton_append]
        congr 1
        apply List.map_congr_left
        intro j _
        rw [show p + 1 + 1 + j = p + 1 + (j + 1) from by omega]
      · rw [hc]
        simp only [diagramElemLoop, if_pos, h.2]
        omega

theorem diagramAnswerLoop_orch (total : Nat) :
    ∀ (ans : List AnswerRec) (p : Nat) (acc : List (String × Nat)),
      orchestratorProgress (diagramAnswerLoop total p ans acc).1 =
        List.map (fun j : Nat => 65 + (p + 1 + j) * 10 / total)
          (List.range (totalTrue ans)) := by
  intro ans
  induction ans with
  | nil => intro p acc; simp [diagramAnswerLoop, totalTrue]
  | cons a rest ih =>
    intro p acc
    have he := diagramElemLoop_spec total a.visuals p
    have hrest := ih (p + a.visuals.count true)
      (if 0 < (diagramElemLoop total p a.visuals).2.2 then
        setK a.question_id (diagramElemLoop total p a.visuals).2.2 acc
      else acc)
    have htt : totalTrue (a :: rest) = a.visuals.count true + totalTrue rest := by
      simp [totalTrue]
    rw [htt, List.range_add, List.map_append, List.map_map]
    simp only [diagramAnswerLoop, orchestratorProgress_append]
    rw [he.1, he.2, hrest]
    congr 1
    congr 1
    funext j
    simp only [Function.comp]
    rw [show p + List.count true a.visuals + 1 + j =
      p + 1 + (List.count true a.visuals + j) from by omega]

theorem totalTrue_le (ans : List AnswerRec) :
    totalTrue ans ≤ (ans.map (fun a => a.visuals.length)).sum := by
  induction ans with
  | nil => simp [totalTrue]
  | cons a rest ih =>
    simp only [totalTrue, List.map_cons, List.sum_cons] at ih ⊢
    exact Nat.add_le_add (List.count_le_length true a.visuals) ih

theorem orch_stage4 (ans : List AnswerRec) :
    orchestratorProgress (stage4 ans).1 =
      65 :: (List.map (fun j : Nat => 65 + (j + 1) * 10 /
          ((ans.map (fun a => a.visuals.length)).sum))
        (List.range (totalTrue ans)) ++ [75]) := by
  rw [stage4]
  by_cases ht : 0 < (ans.map (fun x => x.visuals.length)).sum
  · have hd := diagramAnswerLoop_orch
      ((ans.map (fun a => a.visuals.length)).sum) ans 0 []
    simp only [if_pos ht, orchestratorProgress_cons,
      orchestratorProgress_append, hd]
    norm_num
    intro a _
    rw [Nat.add_comm 1 a]
  · have hz : (ans.map (fun a => a.visuals.length)).sum = 0 := by omega
    have htt : totalTrue ans = 0 := by
      have := totalTrue_le ans
      omega
    simp [if_neg ht, htt]

theorem progressValues_getLast_emit (l : List Action) (d : ResultData)
    (st : SessionStatus) (b : Bool) (s m : String) :
    (progressValues (l ++ [Action.storeResult d, Action.setStatus st,
      Action.emit b s 100 m])).getLast? = some 100 := by
  rw [progressValues_append]
  rw [show progressValues [Action.storeResult d, Action.setStatus st,
      Action.emit b s 100 m] = [100] from by simp]
  rw [List.getLast?_concat]

/-- The full shape of the `try` body's trace on the
all-collaborators-succeed path. -/
theorem process_try_success_shape (env : PipelineEnv)
    (questions : List Question)
    (hp : env.parse = Except.ok questions) (hq : questions.isEmpty = false)
    (hi : env.init = none) (fp : String × Nat) (pid : String)
    (hpdf : env.pdf = Except.ok fp) (hsave : env.save = Except.ok pid) :
    (process_question_paper_try env).1 =
      ([ Action.setStatus SessionStatus.processing,
         Action.emit false "initializing" 0 "Initializing processing",
         Action.emit false "parsing" 5 "Parsing input file" ] ++
       [ Action.emit false "parsing_complete" 15
           ("Successfully parsed " ++ toString questions.length ++
             " questions"),
         Action.emit false "initializing_services" 20
           "Initializing services" ] ++
       [ Action.emit false "generating_answers" 25
           ("Generating answers for " ++ toString questions.length ++
             " questions") ] ++
       (answerLoop env.gen questions.length questions 1).1 ++
       [ Action.emit false "answers_complete" 60
           ("Successfully generated " ++
             toString (answerLoop env.gen questions.length questions 1).2.length
             ++ " answers") ] ++
       (stage4 (answerLoop env.gen questions.length questions 1).2).1 ++
       [ Action.emit false "generating_pdf" 80 "Generating PDF document" ] ++
       [ Action.emit false "pdf_complete" 90 "PDF generation complete",
         Action.emit false "storing_pdf" 95 "Storing PDF" ]) ++
      [ Action.storeResult (ResultData.ok pid fp.1 fp.2 questions.length
          (answerLoop env.gen questions.length questions 1).2.length
          (((stage4 (answerLoop env.gen questions.length questions 1).2).2.map
            (fun kv => kv.2)).sum)),
        Action.setStatus SessionStatus.complete,
        Action.emit false "complete" 100 "Processing complete" ] := by
  rw [process_question_paper_try]
  simp [hp, hq, hi, hpdf, hsave]

/-- C3 counterexample: a successful one-question run whose progress sequence
regresses — after the per-question 60% event, the remapped sub-task events
restart at 24 — so the percentages of a successful run are not
non-decreasing. -/
theorem C3_counterexample :
    (process_question_paper envC3).2 =
      Except.ok (ResultData.ok "pdf-1" "answers.pdf" 2 1 1 0) ∧
    progressValues (process_question_paper envC3).1 =
      [0, 5, 15, 20, 25, 60, 24, 28, 36, 48, 56, 60, 60, 65, 75, 80, 90,
       95, 100] ∧
    ¬ List.Chain' (fun x y => x ≤ y)
        (progressValues (process_question_paper envC3).1) := by
  refine ⟨rfl, rfl, ?_⟩
  intro hchain
  rw [show progressValues (process_question_paper envC3).1 =
    [0, 5, 15, 20, 25, 60, 24, 28, 36, 48, 56, 60, 60, 65, 75, 80, 90, 95,
     100] from rfl] at hchain
  simp [List.chain'_cons] at hchain

/-- C3 amended: within a run that completes successfully, the final progress
event reports 100, and the percentages of the events emitted directly by the
orchestrator form a non-decreasing sequence; the full sequence is not
non-decreasing in general, because the remapped answer-generation sub-task
events (20-60 band) may fall below the per-question event that precedes
them. -/
theorem C3_amended (env : PipelineEnv) (r : ResultData)
    (h : (process_question_paper env).2 = Except.ok r) :
    (progressValues (process_question_paper env).1).getLast? = some 100 ∧
    List.Chain' (fun x y => x ≤ y)
      (orchestratorProgress (process_question_paper env).1) := by
  have htry : (process_question_paper_try env).2 = Except.ok r := by
    rw [process_question_paper] at h
    rcases hres : (process_question_paper_try env).2 with e | r2
    · simp [hres] at h
    · simp only [hres] at h
      simp at h
      rw [h]
  rcases hp : env.parse with m | questions
  · rw [process_question_paper_try, hp] at htry
    simp at htry
  cases hq : questions.isEmpty
  case true =>
    rw [process_question_paper_try, hp] at htry
    simp [hq] at htry
  case false =>
  rcases hi : env.init with _ | e
  case some =>
    rw [process_question_paper_try, hp] at htry
    simp [hq, hi] at htry
  case none =>
  rcases hpdf : env.pdf with pe | fp
  · rw [process_question_paper_try, hp] at htry
    simp [hq, hi, hpdf] at htry
  rcases hsave : env.save with pe | pid
  · rw [process_question_paper_try, hp] at htry
    simp [hq, hi, hpdf, hsave] at htry
  have hn : 0 < questions.length := by
    cases questions with
    | nil => simp at hq
    | cons a l => simp
  have hsh1 := process_try_success_shape env questions hp hq hi fp pid hpdf
    hsave
  have htr : (process_question_paper env).1 =
      (process_question_paper_try env).1 ++
        (if env.fileExists then [Action.removeFile] else []) := by
    rw [process_question_paper]
    simp [htry]
  have hA := orch_answerLoop env.gen questions.length questions 0
  norm_num at hA
  have hS := orch_stage4 (answerLoop env.gen questions.length questions 1).2
  have hcanon : orchestratorProgress (process_question_paper_try env).1 =
      [0, 5, 15, 20, 25] ++
        (List.map (fun j : Nat => 25 + (1 + j) * 35 / questions.length)
            (List.range questions.length) ++
          ([60, 65] ++
            (List.map (fun j : Nat => 65 + (j + 1) * 10 /
                (((answerLoop env.gen questions.length questions 1).2.map
                  (fun a => a.visuals.length)).sum))
                (List.range (totalTrue
                  (answerLoop env.gen questions.length questions 1).2)) ++
              [75, 80, 90, 95, 100]))) := by
    rw [hsh1]
    simp [orchestratorProgress_append, hA, hS]
  have hBmem : ∀ y ∈ List.map
      (fun j : Nat => 25 + (1 + j) * 35 / questions.length)
      (List.range questions.length), 25 ≤ y ∧ y ≤ 60 := by
    intro y hy
    simp only [List.mem_map, List.mem_range] at hy
    obtain ⟨j, hj, rfl⟩ := hy
    have h2 : (1 + j) * 35 / questions.length ≤ 35 :=
      Nat.div_le_of_le_mul (by omega)
    exact ⟨Nat.le_add_right 25 _, by omega⟩
  have hDmem : ∀ y ∈ List.map (fun j : Nat => 65 + (j + 1) * 10 /
      (((answerLoop env.gen questions.length questions 1).2.map
        (fun a => a.visuals.length)).sum))
      (List.range (totalTrue
        (answerLoop env.gen questions.length questions 1).2)),
      65 ≤ y ∧ y ≤ 75 := by
    intro y hy
    simp only [List.mem_map, List.mem_range] at hy
    obtain ⟨j, hj, rfl⟩ := hy
    have hTT := totalTrue_le
      (answerLoop env.gen questions.length questions 1).2
    have h2 : (j + 1) * 10 /
        (((answerLoop env.gen questions.length questions 1).2.map
          (fun a => a.visuals.length)).sum) ≤ 10 :=
      Nat.div_le_of_le_mul (by omega)
    exact ⟨Nat.le_add_right 65 _, by omega⟩
  have hBchain := chain'_le_map_range
    (fun j => 25 + (1 + j) * 35 / questions.length)
    (fun a b hab => by
      simp only []
      have h3 : (1 + a) * 35 / questions.length ≤
          (1 + b) * 35 / questions.length :=
        Nat.div_le_div_right (by omega)
      omega) questions.length
  have hDchain := chain'_le_map_range
    (fun j => 65 + (j + 1) * 10 /
      (((answerLoop env.gen questions.length questions 1).2.map
        (fun a => a.visuals.length)).sum))
    (fun a b hab => by
      simp only []
      have h3 : (a + 1) * 10 /
          (((answerLoop env.gen questions.length questions 1).2.map
            (fun a => a.visuals.length)).sum) ≤
          (b + 1) * 10 /
          (((answerLoop env.gen questions.length questions 1).2.map
            (fun a => a.visuals.length)).sum) :=
        Nat.div_le_div_right (by omega)
      omega)
    (totalTrue (answerLoop env.gen questions.length questions 1).2)
  constructor
  · rw [htr, progressValues_append]
    have hclean : progressValues
        (if env.fileExists then [Action.removeFile] else []) = [] := by
      cases env.fileExists <;> simp
    rw [hclean, List.append_nil, hsh1]
    exact progressValues_getLast_emit _ _ _ _ _ _
  · rw [htr, orchestratorProgress_append]
    have hcleano : orchestratorProgress
        (if env.fileExists then [Action.removeFile] else []) = [] := by
      cases env.fileExists <;> simp
    rw [hcleano, List.append_nil, hcanon]
    apply chain'_le_append
    · simp [List.chain'_cons]
    · apply chain'_le_append
      · exact hBchain
      · apply chain'_le_append
        · simp [List.chain'_cons]
        · apply chain'_le_append
          · exact hDchain
          · simp [List.chain'_cons]
          · intro x hx y hy
            have hx2 := (hDmem x hx).2
            have hy2 : 75 ≤ y := by
              simp at hy
              rcases hy with rfl | rfl | rfl | rfl | rfl <;> omega
            omega
        · intro x hx y hy
          have hx2 : x ≤ 65 := by
            simp at hx
            rcases hx with rfl | rfl <;> omega
          rcases List.mem_append.mp hy with h1 | h1
          · have := (hDmem y h1).1
            omega
          · have hy2 : 75 ≤ y := by
              simp at h1
              rcases h1 with rfl | rfl | rfl | rfl | rfl <;> omega
            omega
      · intro x hx y hy
        have hx2 := (hBmem x hx).2
        rcases List.mem_append.mp hy with h1 | h1
        · have hy2 : 60 ≤ y := by
            simp at h1
            rcases h1 with rfl | rfl <;> omega
          omega
        rcases List.mem_append.mp h1 with h2 | h2
        · have := (hDmem y h2).1
          omega
        · have hy2 : 75 ≤ y := by
            simp at h2
            rcases h2 with rfl | rfl | rfl | rfl | rfl <;> omega
          omega
    · intro x hx y hy
      have hx2 : x ≤ 25 := by
        simp at hx
        rcases hx with rfl | rfl | rfl | rfl | rfl <;> omega
      rcases List.mem_append.mp hy with h1 | h1
      · have := (hBmem y h1).1
        omega
      rcases List.mem_append.mp h1 with h2 | h2
      · have hy2 : 60 ≤ y := by
          simp at h2
          rcases h2 with rfl | rfl <;> omega
        omega
      rcases List.mem_append.mp h2 with h3 | h3
      · have := (hDmem y h3).1
        omega
      · have hy2 : 75 ≤ y := by
          simp at h3
          rcases h3 with rfl | rfl | rfl | rfl | rfl <;> omega
        omega

/-- Witness for C3 amended on the concrete successful run `envC3`. -/
theorem C3_amended_witness :
    (progressValues (process_question_paper envC3).1).getLast? = some 100 ∧
    List.Chain' (fun x y => x ≤ y)
      (orchestratorProgress (process_question_paper envC3).1) :=
  C3_amended envC3 (ResultData.ok "pdf-1" "answers.pdf" 2 1 1 0) (by rfl)

end QAGen
